import Mathlib

/-!
Verification of the Househelp provider-matching and booking core.

The definitions below are a shallow embedding of the JavaScript source:
the Booking model and its partial unique index (models/Booking.js),
the booking-creation route (routes/bookings.js, POST /bookings),
the availability route with its pricing resolver, per-provider slot
generator and busy-interval derivation (routes/services.js,
GET /services/:id/availability), and the state-transition routes
(assign / start / complete / stop / feedback).

JavaScript numbers holding money amounts are modelled as rationals;
minute counts, loyalty points and loop counters are naturals; mongoose
documents are Lean structures; database collections are lists; request
handlers are pure functions returning Except (statusCode, message) on
the rejection paths, mirroring the res.status(...).json(...) calls that
happen before any write.
-/

namespace Househelp

/-- Pricing snapshot frozen on a Booking at creation: base, tax, total. -/
structure PricingSnap where
  base : ℚ
  tax : ℚ
  total : ℚ
deriving Repr, DecidableEq

/-- Booking document, following bookingSchema in models/Booking.js.
customer is required; provider is nullable (None means unassigned);
service holds the service id; date and timeSlot are plain strings;
status is one of the schema enum strings; feedback holds the optional
rating/comment pair. -/
structure Booking where
  customer : String
  provider : Option String
  service : String
  address : String
  date : String
  timeSlot : String
  status : String
  pricing : PricingSnap
  feedback : Option (Int × String)
deriving Repr, DecidableEq

/-- Status strings covered by the partial unique index in
models/Booking.js: status is in the list of the
partialFilterExpression, spelled there as
pending / confirmed / "in progress". -/
def indexActiveStatuses : List String := ["pending", "confirmed", "in progress"]

/-- A document is covered by the partial index when its provider field
exists and is non-null and its status is one of the filtered statuses
(the partialFilterExpression of bookingSchema.index). -/
def indexCovers (b : Booking) : Bool :=
  b.provider.isSome && indexActiveStatuses.contains b.status

/-- Two documents collide on the index key (provider, date, timeSlot). -/
def sameIndexKey (a b : Booking) : Bool :=
  a.provider == b.provider && a.date == b.date && a.timeSlot == b.timeSlot

/-- A unique-index conflict: both documents are covered by the partial
index and they share the index key. -/
def indexConflict (a b : Booking) : Bool :=
  indexCovers a && indexCovers b && sameIndexKey a b

/-- Semantics of Booking.create against the partial unique index: the
insert fails with a duplicate-key error when some stored document
conflicts with the new one, otherwise the document is stored. -/
def insertBooking (db : List Booking) (b : Booking) : Except String (List Booking) :=
  if db.any (fun e => indexConflict e b) then
    .error "E11000 duplicate key error"
  else
    .ok (b :: db)

/-- States reachable through insertBooking keep pairwise absence of
index conflicts. -/
def NoActiveDup (db : List Booking) : Prop :=
  db.Pairwise (fun a b => ¬ indexConflict a b = true)

theorem sameIndexKey_comm (a b : Booking) : sameIndexKey a b = sameIndexKey b a := by
  simp only [sameIndexKey]
  rw [Bool.eq_iff_iff]
  simp only [Bool.and_eq_true, beq_iff_eq]
  constructor
  · intro h
    exact ⟨⟨h.1.1.symm, h.1.2.symm⟩, h.2.symm⟩
  · intro h
    exact ⟨⟨h.1.1.symm, h.1.2.symm⟩, h.2.symm⟩

theorem indexConflict_comm (a b : Booking) : indexConflict a b = indexConflict b a := by
  simp only [indexConflict]
  rw [Bool.eq_iff_iff]
  simp only [Bool.and_eq_true, sameIndexKey_comm a b]
  constructor
  · intro h
    exact ⟨⟨h.1.2, h.1.1⟩, h.2⟩
  · intro h
    exact ⟨⟨h.1.2, h.1.1⟩, h.2⟩

theorem insertBooking_ok_of_clean (db : List Booking) (b : Booking)
    (h : ∀ e ∈ db, indexConflict e b = false) :
    insertBooking db b = .ok (b :: db) := by
  simp only [insertBooking, ite_eq_right_iff]
  intro hany
  rcases List.any_eq_true.mp hany with ⟨e, he, hc⟩
  rw [h e he] at hc
  cases hc

/-- C1: at every state reachable through inserts guarded by the partial
unique index of models/Booking.js, no two stored bookings collide on
(provider, date, timeSlot) while both carry an active status and a
non-null provider; two creation attempts for the same triple with
active statuses yield exactly one success, the second failing with the
duplicate-key conflict; and bookings whose provider is null are exempt
from the constraint. -/
theorem booking_uniqueness_invariant
    (db : List Booking) (b1 b2 : Booking) (p : String)
    (hp1 : b1.provider = some p) (hp2 : b2.provider = some p)
    (hs1 : b1.status ∈ indexActiveStatuses) (hs2 : b2.status ∈ indexActiveStatuses)
    (hd : b2.date = b1.date) (ht : b2.timeSlot = b1.timeSlot)
    (hclean : ∀ e ∈ db, indexConflict e b1 = false) :
    (insertBooking db b1 = .ok (b1 :: db) ∧
      insertBooking (b1 :: db) b2 = .error "E11000 duplicate key error") ∧
    (∀ db2 c dbr, NoActiveDup db2 → insertBooking db2 c = .ok dbr → NoActiveDup dbr) ∧
    (∀ db2 c, c.provider = none → insertBooking db2 c = .ok (c :: db2)) := by
  have hcov1 : indexCovers b1 = true := by
    simp only [indexCovers, hp1]
    simpa using hs1
  have hcov2 : indexCovers b2 = true := by
    simp only [indexCovers, hp2]
    simpa using hs2
  have hconf : indexConflict b1 b2 = true := by
    simp [indexConflict, hcov1, hcov2, sameIndexKey, hp1, hp2, hd, ht]
  refine ⟨⟨insertBooking_ok_of_clean db b1 hclean, ?_⟩, ?_, ?_⟩
  · simp only [insertBooking]
    rw [if_pos]
    exact List.any_eq_true.mpr ⟨b1, List.mem_cons_self b1 db, hconf⟩
  · intro db2 c dbr hnd hins
    simp only [insertBooking] at hins
    by_cases hany : db2.any (fun e => indexConflict e c) = true
    · rw [if_pos hany] at hins
      cases hins
    · rw [if_neg hany] at hins
      cases hins
      refine List.pairwise_cons.mpr ⟨?_, hnd⟩
      intro e he hc
      have : db2.any (fun e => indexConflict e c) = true := by
        refine List.any_eq_true.mpr ⟨e, he, ?_⟩
        rw [indexConflict_comm]
        exact hc
      exact hany this
  · intro db2 c hc
    refine insertBooking_ok_of_clean db2 c ?_
    intro e _
    simp [indexConflict, indexCovers, hc]

/-- Concrete run of booking_uniqueness_invariant: inserting a second
confirmed booking for the same provider, date and slot fails. -/
theorem booking_uniqueness_invariant_witness :
    (insertBooking []
        { customer := "c1", provider := some "p1", service := "s1",
          address := "addr", date := "2025-06-01",
          timeSlot := "09:00 am - 11:00 am", status := "confirmed",
          pricing := ⟨400, 72, 472⟩, feedback := none } =
      .ok [{ customer := "c1", provider := some "p1", service := "s1",
             address := "addr", date := "2025-06-01",
             timeSlot := "09:00 am - 11:00 am", status := "confirmed",
             pricing := ⟨400, 72, 472⟩, feedback := none }]) ∧
    (insertBooking
        [{ customer := "c1", provider := some "p1", service := "s1",
           address := "addr", date := "2025-06-01",
           timeSlot := "09:00 am - 11:00 am", status := "confirmed",
           pricing := ⟨400, 72, 472⟩, feedback := none }]
        { customer := "c2", provider := some "p1", service := "s1",
          address := "addr2", date := "2025-06-01",
          timeSlot := "09:00 am - 11:00 am", status := "pending",
          pricing := ⟨400, 72, 472⟩, feedback := none } =
      .error "E11000 duplicate key error") := by
  have h := booking_uniqueness_invariant []
    { customer := "c1", provider := some "p1", service := "s1",
      address := "addr", date := "2025-06-01",
      timeSlot := "09:00 am - 11:00 am", status := "confirmed",
      pricing := ⟨400, 72, 472⟩, feedback := none }
    { customer := "c2", provider := some "p1", service := "s1",
      address := "addr2", date := "2025-06-01",
      timeSlot := "09:00 am - 11:00 am", status := "pending",
      pricing := ⟨400, 72, 472⟩, feedback := none }
    "p1" rfl rfl (by decide) (by decide) rfl rfl (by intro e he; cases he)
  exact ⟨h.1.1, h.1.2⟩

/-- Whitespace dropped from the front of a character list. -/
def dropWs : List Char → List Char
  | [] => []
  | c :: rest => if c.isWhitespace then dropWs rest else c :: rest

/-- Trim on character lists: whitespace removed from both ends. -/
def trimChars (cs : List Char) : List Char :=
  ((dropWs cs).reverse |> dropWs).reverse

/-- Trim on strings, through the character list. -/
def trimStr (s : String) : String :=
  String.mk (trimChars s.data)

/-- ASCII lower-casing of one character; the strings compared by the
category queries are ASCII, so this captures both toLowerCase and the
case-insensitive regex flag. -/
def asciiLower (c : Char) : Char :=
  if 'A' ≤ c ∧ c ≤ 'Z' then Char.ofNat (c.toNat + 32) else c

/-- Decimal value of an all-digit character list, none on any
non-digit. -/
def decDigits : List Char → ℕ → Option ℕ
  | [], acc => some acc
  | c :: rest, acc =>
    if c.isDigit then decDigits rest (acc * 10 + (c.toNat - 48)) else none

/-- Numeric coercion of the time strings, following JS Number on the
values that occur in time fields: surrounding whitespace is ignored,
the empty string is 0, a string of decimal digits is its value,
anything else is NaN (modelled as none). -/
def jsNumNat (s : String) : Option ℕ :=
  match trimChars s.data with
  | [] => some 0
  | t => decDigits t 0

/-- Split of a character list on the colon, as split(':') does:
always at least one part, empty parts kept. -/
def splitCols : List Char → List (List Char)
  | [] => [[]]
  | c :: rest =>
    let parts := splitCols rest
    if c = ':' then [] :: parts
    else
      match parts with
      | x :: xs => (c :: x) :: xs
      | [] => [[c]]

/-- Minutes-of-day of a time string, as computed in
routes/services.js: split(':') and read parts 0 and 1 as numbers,
h * 60 + m; none when either part is NaN or the separator is absent. -/
def parseMinutes (s : String) : Option ℕ :=
  match splitCols s.data with
  | h :: m :: _ =>
    match jsNumNat (String.mk h), jsNumNat (String.mk m) with
    | some a, some b => some (a * 60 + b)
    | _, _ => none
  | _ => none

/-- Pricing entry of a Service. The current serviceSchema
(models/Service.js) gives entries startTime (default "00:00"),
endTime (default "23:59") and price; the legacy shape carried a
timeSlot label instead, so that field is optional here (none for
documents of the current schema). -/
structure PricingEntry where
  timeSlot : Option String
  startTime : String
  endTime : String
  price : ℚ
deriving Repr, DecidableEq

/-- Whether a candidate slot [s, e) in minutes-of-day is fully
contained in a pricing window, as tested by getSlotPriceInfo in
routes/services.js: falsy startTime/endTime fall back to "00:00" and
"23:59", the strings are trimmed and parsed, and the window matches
when wStart <= s and e <= wEnd; a NaN bound never matches. -/
def windowMatches (w : PricingEntry) (s e : ℕ) : Bool :=
  match parseMinutes (trimStr (if w.startTime == "" then "00:00" else w.startTime)),
        parseMinutes (trimStr (if w.endTime == "" then "23:59" else w.endTime)) with
  | some ws, some we => decide (ws ≤ s) && decide (e ≤ we)
  | _, _ => false

/-- PricingResolver: getSlotPriceInfo iterates service.pricing in
stored order and returns the price of the first matching window,
none when no window contains the slot. -/
def priceFor : List PricingEntry → ℕ → ℕ → Option ℚ
  | [], _, _ => none
  | w :: rest, s, e =>
    if windowMatches w s e then some w.price else priceFor rest s e

/-- C4: priceFor matches the first window, in declaration order, that
fully contains the candidate slot [s, e): it yields none exactly when
no window contains the slot, and it yields a price q exactly when the
window list splits as W1 ++ w :: W2 with no window of W1 containing
the slot, w containing it, and q the price of w. Determinism is
inherent: priceFor is a function of its arguments. -/
theorem priceFor_first_match (W : List PricingEntry) (s e : ℕ) :
    (priceFor W s e = none ↔ ∀ w ∈ W, windowMatches w s e = false) ∧
    (∀ q : ℚ, priceFor W s e = some q ↔
      ∃ W1 w W2, W = W1 ++ w :: W2 ∧ windowMatches w s e = true ∧
        q = w.price ∧ ∀ v ∈ W1, windowMatches v s e = false) := by
  induction W with
  | nil =>
    constructor
    · simp [priceFor]
    · intro q
      constructor
      · intro h
        cases h
      · rintro ⟨W1, w, W2, heq, -, -, -⟩
        exact absurd heq.symm (List.append_ne_nil_of_right_ne_nil W1 (List.cons_ne_nil w W2))
  | cons w rest ih =>
    by_cases h : windowMatches w s e = true
    · have hstep : priceFor (w :: rest) s e = some w.price := by
        simp [priceFor, h]
      constructor
      · rw [hstep]
        simp only [reduceCtorEq, false_iff, not_forall]
        exact ⟨w, ⟨List.mem_cons_self w rest, by simp [h]⟩⟩
      · intro q
        rw [hstep]
        constructor
        · intro hq
          refine ⟨[], w, rest, rfl, h, ?_, by intro v hv; cases hv⟩
          cases hq
          rfl
        · rintro ⟨W1, w2, W2, heq, hm, hq, hW1⟩
          cases W1 with
          | nil =>
            simp only [List.nil_append] at heq
            cases heq
            rw [hq]
          | cons v V1 =>
            rw [List.cons_append] at heq
            injection heq with h1 h2
            subst h1
            have hf := hW1 w (List.mem_cons_self w V1)
            rw [hf] at h
            cases h
    · have hfalse : windowMatches w s e = false := by
        revert h
        cases windowMatches w s e <;> simp
      have hstep : priceFor (w :: rest) s e = priceFor rest s e := by
        simp [priceFor, hfalse]
      constructor
      · rw [hstep, ih.1]
        constructor
        · intro hall v hv
          rcases List.mem_cons.mp hv with hv | hv
          · rw [hv]; exact hfalse
          · exact hall v hv
        · intro hall v hv
          exact hall v (List.mem_cons_of_mem w hv)
      · intro q
        rw [hstep, ih.2 q]
        constructor
        · rintro ⟨W1, w2, W2, heq, hm, hq, hW1⟩
          refine ⟨w :: W1, w2, W2, ?_, hm, hq, ?_⟩
          · rw [List.cons_append, heq]
          · intro v hv
            rcases List.mem_cons.mp hv with hv | hv
            · rw [hv]; exact hfalse
            · exact hW1 v hv
        · rintro ⟨W1, w2, W2, heq, hm, hq, hW1⟩
          cases W1 with
          | nil =>
            simp only [List.nil_append] at heq
            cases heq
            rw [hm] at hfalse
            cases hfalse
          | cons v V1 =>
            rw [List.cons_append] at heq
            injection heq with h1 h2
            exact ⟨V1, w2, W2, h2, hm, hq,
              fun u hu => hW1 u (List.mem_cons_of_mem v hu)⟩

/-- Service document, following serviceSchema in models/Service.js:
id, name (doubles as the category key), the ordered pricing list and
the base duration in minutes. -/
structure ServiceDoc where
  id : String
  name : String
  pricing : List PricingEntry
  baseDuration : ℕ
deriving Repr, DecidableEq

/-- Provider-side User document (models/User.js), restricted to the
fields the matching code reads. distMeters is the geodesic distance
from the request point to the provider location as computed by the
geo layer; provider lists handed to the matching code are ordered by
that distance, as the 2dsphere near-query returns them. -/
structure ProviderUser where
  id : String
  name : String
  role : String
  isVerified : Bool
  serviceCategory : String
  points : ℕ
  gifts : List String
  earnings : ℚ
  whStart : String
  whEnd : String
  distMeters : ℚ
deriving Repr, DecidableEq

/-- Category matching used by the provider queries: the regex built
from the trimmed service name, anchored on both sides with the
case-insensitive flag, accepts exactly the strings equal to the
trimmed service name up to case. -/
def categoryMatch (serviceName category : String) : Bool :=
  (trimChars serviceName.data).map asciiLower == category.data.map asciiLower

/-- Body of POST /bookings: serviceId, address, city, date, timeSlot
and the lat/lng pair (none when the body has no location object). -/
structure CreateRequest where
  customerId : String
  serviceId : String
  address : String
  city : String
  date : String
  timeSlot : String
  location : Option (ℚ × ℚ)
deriving Repr, DecidableEq

/-- Providers already holding a booking for (date, timeSlot) with
status confirmed or in_progress, as collected by the distinct query
at the top of the creation route (routes/bookings.js). -/
def busyProviderIds (bookings : List Booking) (date timeSlot : String) :
    List (Option String) :=
  (bookings.filter (fun b =>
    b.date == date && b.timeSlot == timeSlot &&
      (b.status == "confirmed" || b.status == "in_progress"))).map (·.provider)

/-- Eligibility test of the findOne near-query in the creation route:
role provider, verified, category regex match, id not among the busy
providers, within the 40,000 m radius. -/
def eligibleForAssignment (svcName : String) (busy : List (Option String))
    (u : ProviderUser) : Bool :=
  u.role == "provider" && u.isVerified && categoryMatch svcName u.serviceCategory &&
    !(busy.contains (some u.id)) && decide (u.distMeters ≤ 40000)

/-- First eligible provider in distance order, or none — the findOne
with the $near geometry in the creation route. -/
def findAvailableProvider (users : List ProviderUser) (svcName : String)
    (busy : List (Option String)) : Option ProviderUser :=
  users.find? (eligibleForAssignment svcName busy)

/-- Message of the created-booking response when no provider was
matched. -/
def noProviderMessage : String := "No provider available at this time. Booking is pending."

/-- POST /bookings (routes/bookings.js): validates the location,
resolves the service, computes the busy set and the nearest eligible
provider, looks the requested slot up among the pricing entries by
their timeSlot field, freezes the pricing snapshot with the 18% tax,
and creates the booking confirmed with the matched provider or
pending and unassigned. Errors are the status/message pairs the route
answers before any write. -/
def createBooking (services : List ServiceDoc) (users : List ProviderUser)
    (bookings : List Booking) (req : CreateRequest) :
    Except (ℕ × String) (Booking × String) :=
  match req.location with
  | none => .error (400, "Location (lat/lng) is required for booking")
  | some (lat, lng) =>
    if lat == 0 || lng == 0 then
      .error (400, "Location (lat/lng) is required for booking")
    else
      match services.find? (fun s => s.id == req.serviceId) with
      | none => .error (404, "Service not found")
      | some service =>
        let busy := busyProviderIds bookings req.date req.timeSlot
        let availableProvider := findAvailableProvider users service.name busy
        match service.pricing.find? (fun p => p.timeSlot == some req.timeSlot) with
        | none => .error (400, "Invalid time slot selected")
        | some pricingRule =>
          let basePrice := pricingRule.price
          let tax := basePrice * 0.18
          let total := basePrice + tax
          let booking : Booking :=
            { customer := req.customerId,
              provider := availableProvider.map (·.id),
              service := req.serviceId,
              address := req.address,
              date := req.date,
              timeSlot := req.timeSlot,
              status := if availableProvider.isSome then "confirmed" else "pending",
              pricing := ⟨basePrice, tax, total⟩,
              feedback := none }
          match availableProvider with
          | some p => .ok (booking, "Booking confirmed with provider " ++ p.name)
          | none => .ok (booking, noProviderMessage)

theorem createBooking_eq_confirmed
    (services : List ServiceDoc) (users : List ProviderUser) (bookings : List Booking)
    (req : CreateRequest) (lat lng : ℚ) (service : ServiceDoc) (rule : PricingEntry)
    (p : ProviderUser)
    (hloc : req.location = some (lat, lng)) (hlat : lat ≠ 0) (hlng : lng ≠ 0)
    (hsvc : services.find? (fun s => s.id == req.serviceId) = some service)
    (hrule : service.pricing.find? (fun pr => pr.timeSlot == some req.timeSlot) = some rule)
    (hp : findAvailableProvider users service.name
        (busyProviderIds bookings req.date req.timeSlot) = some p) :
    createBooking services users bookings req =
      .ok ({ customer := req.customerId, provider := some p.id,
             service := req.serviceId, address := req.address,
             date := req.date, timeSlot := req.timeSlot,
             status := "confirmed",
             pricing := ⟨rule.price, rule.price * 0.18, rule.price + rule.price * 0.18⟩,
             feedback := none }, "Booking confirmed with provider " ++ p.name) := by
  have hz : (lat == 0 || lng == 0) = false := by
    simp [hlat, hlng]
  simp [createBooking, hloc, hz, hsvc, hrule, hp]

theorem createBooking_eq_pending
    (services : List ServiceDoc) (users : List ProviderUser) (bookings : List Booking)
    (req : CreateRequest) (lat lng : ℚ) (service : ServiceDoc) (rule : PricingEntry)
    (hloc : req.location = some (lat, lng)) (hlat : lat ≠ 0) (hlng : lng ≠ 0)
    (hsvc : services.find? (fun s => s.id == req.serviceId) = some service)
    (hrule : service.pricing.find? (fun pr => pr.timeSlot == some req.timeSlot) = some rule)
    (hp : findAvailableProvider users service.name
        (busyProviderIds bookings req.date req.timeSlot) = none) :
    createBooking services users bookings req =
      .ok ({ customer := req.customerId, provider := none,
             service := req.serviceId, address := req.address,
             date := req.date, timeSlot := req.timeSlot,
             status := "pending",
             pricing := ⟨rule.price, rule.price * 0.18, rule.price + rule.price * 0.18⟩,
             feedback := none }, noProviderMessage) := by
  have hz : (lat == 0 || lng == 0) = false := by
    simp [hlat, hlng]
  simp [createBooking, hloc, hz, hsvc, hrule, hp]

/-- C2: on a creation request with a valid location, an existing
service and a priced requested slot, a matched eligible provider
yields a booking created with that provider and status confirmed,
while no match yields a booking created with a null provider, status
pending, and the exact pending message. -/
theorem creation_assignment_outcome
    (services : List ServiceDoc) (users : List ProviderUser) (bookings : List Booking)
    (req : CreateRequest) (lat lng : ℚ) (service : ServiceDoc) (rule : PricingEntry)
    (hloc : req.location = some (lat, lng)) (hlat : lat ≠ 0) (hlng : lng ≠ 0)
    (hsvc : services.find? (fun s => s.id == req.serviceId) = some service)
    (hrule : service.pricing.find? (fun pr => pr.timeSlot == some req.timeSlot) = some rule) :
    (∀ p, findAvailableProvider users service.name
        (busyProviderIds bookings req.date req.timeSlot) = some p →
      ∃ bk, createBooking services users bookings req =
          .ok (bk, "Booking confirmed with provider " ++ p.name) ∧
        bk.provider = some p.id ∧ bk.status = "confirmed") ∧
    (findAvailableProvider users service.name
        (busyProviderIds bookings req.date req.timeSlot) = none →
      ∃ bk, createBooking services users bookings req = .ok (bk, noProviderMessage) ∧
        bk.provider = none ∧ bk.status = "pending") := by
  constructor
  · intro p hp
    exact ⟨_, createBooking_eq_confirmed services users bookings req lat lng service rule p
      hloc hlat hlng hsvc hrule hp, rfl, rfl⟩
  · intro hp
    exact ⟨_, createBooking_eq_pending services users bookings req lat lng service rule
      hloc hlat hlng hsvc hrule hp, rfl, rfl⟩

/-- Legacy-shape service used in concrete runs: pricing entries keyed
by a timeSlot label, as seeded by seed_services.js. -/
def svcLegacy : ServiceDoc :=
  { id := "svc1", name := "Bathroom Cleaning",
    pricing := [{ timeSlot := some "09:00 am - 11:00 am", startTime := "",
                  endTime := "", price := 400 }],
    baseDuration := 120 }

/-- Verified nearby provider used in concrete runs. -/
def provAsha : ProviderUser :=
  { id := "p1", name := "Asha", role := "provider", isVerified := true,
    serviceCategory := "bathroom cleaning", points := 0, gifts := [],
    earnings := 0, whStart := "08:00", whEnd := "20:00", distMeters := 1200 }

/-- Creation request used in concrete runs. -/
def reqSlot9 : CreateRequest :=
  { customerId := "c1", serviceId := "svc1", address := "12 Lane",
    city := "Pune", date := "2025-06-01", timeSlot := "09:00 am - 11:00 am",
    location := some (19, 74) }

/-- Concrete run of creation_assignment_outcome with no provider at
all: the booking is created pending and unassigned with the exact
pending message. -/
theorem creation_assignment_outcome_witness :
    ∃ bk, createBooking [svcLegacy] [] [] reqSlot9 = .ok (bk, noProviderMessage) ∧
      bk.provider = none ∧ bk.status = "pending" :=
  (creation_assignment_outcome [svcLegacy] [] [] reqSlot9 19 74
    svcLegacy { timeSlot := some "09:00 am - 11:00 am", startTime := "",
                endTime := "", price := 400 }
    rfl (by decide) (by decide) (by decide) (by decide)).2 (by decide)

/-- C10: the pricing snapshot frozen on every booking the creation
route produces satisfies base = price of the matched rule,
tax = 0.18 * base and total = base + tax. -/
theorem creation_tax_snapshot
    (services : List ServiceDoc) (users : List ProviderUser) (bookings : List Booking)
    (req : CreateRequest) (lat lng : ℚ) (service : ServiceDoc) (rule : PricingEntry)
    (hloc : req.location = some (lat, lng)) (hlat : lat ≠ 0) (hlng : lng ≠ 0)
    (hsvc : services.find? (fun s => s.id == req.serviceId) = some service)
    (hrule : service.pricing.find? (fun pr => pr.timeSlot == some req.timeSlot) = some rule) :
    ∃ bk msg, createBooking services users bookings req = .ok (bk, msg) ∧
      bk.pricing.base = rule.price ∧
      bk.pricing.tax = 0.18 * bk.pricing.base ∧
      bk.pricing.total = bk.pricing.base + bk.pricing.tax := by
  cases hp : findAvailableProvider users service.name
      (busyProviderIds bookings req.date req.timeSlot) with
  | some p =>
    exact ⟨_, _, createBooking_eq_confirmed services users bookings req lat lng service rule p
      hloc hlat hlng hsvc hrule hp, rfl, mul_comm rule.price 0.18, rfl⟩
  | none =>
    exact ⟨_, _, createBooking_eq_pending services users bookings req lat lng service rule
      hloc hlat hlng hsvc hrule hp, rfl, mul_comm rule.price 0.18, rfl⟩

/-- Concrete run of creation_tax_snapshot: a 400-rupee base is frozen
with tax 72 and total 472. -/
theorem creation_tax_snapshot_witness :
    ∃ bk msg, createBooking [svcLegacy] [provAsha] [] reqSlot9 = .ok (bk, msg) ∧
      bk.pricing.base = 400 ∧
      bk.pricing.tax = 0.18 * bk.pricing.base ∧
      bk.pricing.total = bk.pricing.base + bk.pricing.tax := by
  rcases creation_tax_snapshot [svcLegacy] [provAsha] [] reqSlot9 19 74
      svcLegacy { timeSlot := some "09:00 am - 11:00 am", startTime := "",
                  endTime := "", price := 400 }
      rfl (by decide) (by decide) (by decide) (by decide) with ⟨bk, msg, h1, h2, h3, h4⟩
  exact ⟨bk, msg, h1, h2, h3, h4⟩

/-- Window-shape service matching the current serviceSchema: one
pricing window 09:00 to 11:00 priced 400, no timeSlot field. -/
def svcWindow : ServiceDoc :=
  { id := "svc2", name := "Bathroom Cleaning",
    pricing := [{ timeSlot := none, startTime := "09:00",
                  endTime := "11:00", price := 400 }],
    baseDuration := 120 }

/-- C3, failing input: against a service of the current window schema,
the creation route rejects the 09:00-11:00 slot with the invalid-slot
error and creates nothing, although the slot (minutes 540 to 660) is
fully covered by the 09:00-11:00 pricing window, whose resolver price
is 400. The route looks pricing up by a timeSlot field the current
schema's entries do not carry, instead of by window containment. -/
theorem creation_pricing_lookup_bug :
    createBooking [svcWindow] [provAsha] [] { reqSlot9 with serviceId := "svc2" } =
      .error (400, "Invalid time slot selected") ∧
    priceFor svcWindow.pricing 540 660 = some 400 := by
  constructor
  · rfl
  · rfl

/-- Two-digit rendering with the leading zero of padStart(2, 0); the
values rendered by the generator are hours below 24 and minutes below
60, so two digits always suffice. -/
def pad2 (n : ℕ) : String :=
  if n < 10 then String.mk ['0', Char.ofNat (48 + n)]
  else String.mk [Char.ofNat (48 + n / 10 % 10), Char.ofNat (48 + n % 10)]

/-- Rendering of a time in the 12-hour clock with the lowercase am/pm
suffix, as formatSlotTime in routes/services.js does from the Date
fields: t is in absolute minutes from the reference midnight. -/
def formatSlotTime (t : ℕ) : String :=
  let h := t % 1440 / 60
  let m := t % 60
  let ampm := if 12 ≤ h then "pm" else "am"
  let h12 := h % 12
  pad2 (if h12 = 0 then 12 else h12) ++ ":" ++ pad2 m ++ " " ++ ampm

/-- Exact two-digit HH:MM recogniser for the stored-label regex: two
digits, a colon, two digits, returning hours, minutes and the rest. -/
def matchTime : List Char → Option (ℕ × ℕ × List Char)
  | a :: b :: c :: d :: e :: rest =>
    if a.isDigit && b.isDigit && c = ':' && d.isDigit && e.isDigit then
      some ((a.toNat - 48) * 10 + (b.toNat - 48),
            (d.toNat - 48) * 10 + (e.toNat - 48), rest)
    else none
  | _ => none

/-- Case-insensitive am/pm recogniser; true means pm. -/
def matchAmPm : List Char → Option (Bool × List Char)
  | a :: b :: rest =>
    if (a = 'a' ∨ a = 'A') ∧ (b = 'm' ∨ b = 'M') then some (false, rest)
    else if (a = 'p' ∨ a = 'P') ∧ (b = 'm' ∨ b = 'M') then some (true, rest)
    else none
  | _ => none

/-- The parseH helper of the busy-range extraction: pm below 12 adds
12, 12 am becomes 0. -/
def to24 (h : ℕ) (pm : Bool) : ℕ :=
  if pm then (if h < 12 then h + 12 else h) else (if h = 12 then 0 else h)

/-- Attempted match of the stored-label pattern at one position:
HH:MM, optional whitespace, am/pm, optional whitespace, a dash,
optional whitespace, HH:MM, optional whitespace, am/pm — the regex of
the busy-range extraction in routes/services.js. Yields start and end
in minutes of day. -/
def matchRangeAt (cs : List Char) : Option (ℕ × ℕ) :=
  match matchTime cs with
  | none => none
  | some (h1, m1, r1) =>
    match matchAmPm (dropWs r1) with
    | none => none
    | some (pm1, r2) =>
      match dropWs r2 with
      | '-' :: r3 =>
        match matchTime (dropWs r3) with
        | none => none
        | some (h2, m2, r4) =>
          match matchAmPm (dropWs r4) with
          | none => none
          | some (pm2, _) =>
            some (to24 h1 pm1 * 60 + m1, to24 h2 pm2 * 60 + m2)
      | _ => none

/-- Leftmost match of the stored-label pattern, scanning forward as an
unanchored regex search does; none when the label never matches. -/
def scanRange : List Char → Option (ℕ × ℕ)
  | [] => none
  | c :: rest =>
    match matchRangeAt (c :: rest) with
    | some r => some r
    | none => scanRange rest

/-- Busy interval recovered from a rendered timeSlot label, or none
when the label is unparsable. -/
def parseSlotRange (s : String) : Option (ℕ × ℕ) :=
  scanRange s.data

/-- Statuses the availability route counts as busy, exactly the list
of its existing-bookings query in routes/services.js. -/
def availActiveStatuses : List String := ["pending", "confirmed", "in progress"]

/-- Busy intervals of one provider on the queried date: bookings of
that provider on that date with a busy status whose rendered label
parses; unparsable labels contribute nothing. Folds the
existing-bookings query (date, status filter, provider among the
eligible ids) with the per-provider filter of the generator. -/
def busyRangesFor (bookings : List Booking) (pid : String) (date : String) :
    List (ℕ × ℕ) :=
  (bookings.filter (fun b =>
    b.provider == some pid && b.date == date &&
      availActiveStatuses.contains b.status)).filterMap
    (fun b => parseSlotRange b.timeSlot)

/-- Emitted candidate slot of the generator: rendered label, start in
reference minutes (the code stores the epoch milliseconds of the same
instant), price, availability flag and the provider. -/
structure Slot where
  timeSlot : String
  startTime : ℕ
  price : ℚ
  isAvailable : Bool
  providerId : String
deriving Repr, DecidableEq

/-- Half-open overlap test of the generator: some busy range has
candidateStart < busyEnd and candidateEnd > busyStart. -/
def overlapsBusy (ranges : List (ℕ × ℕ)) (s e : ℕ) : Bool :=
  ranges.any (fun r => decide (s < r.2) && decide (r.1 < e))

/-- Loop body of generateProviderSlots: fuel is the safety counter
(100 at the top call, while safety < 100), t the current time in
absolute minutes of the reference day. A candidate ends at
t + duration; the loop breaks when the candidate end leaves the
reference day (slotEnd.getDate() changes, here: reaches 1440 minutes;
the modelling is exact while times stay inside the reference month)
or, when the working-hours end parsed, when the candidate end passes
it (a NaN end, provEnd none, never breaks). Unpriced candidates are
skipped silently; priced ones are emitted with the availability
flag. -/
def pastProvEnd (provEnd : Option ℕ) (endMin : ℕ) : Bool :=
  match provEnd with
  | some pe => decide (pe < endMin)
  | none => false

def genLoop (pricing : List PricingEntry) (ranges : List (ℕ × ℕ)) (pid : String)
    (duration : ℕ) (provEnd : Option ℕ) : ℕ → ℕ → List Slot
  | 0, _ => []
  | fuel + 1, t =>
    let tEnd := t + duration
    if 1440 ≤ tEnd then []
    else if pastProvEnd provEnd (tEnd % 1440) then []
    else
      let rest := genLoop pricing ranges pid duration provEnd fuel (t + 30)
      match priceFor pricing (t % 1440) (tEnd % 1440) with
      | some price =>
        { timeSlot := formatSlotTime t ++ " - " ++ formatSlotTime tEnd,
          startTime := t, price := price,
          isAvailable := ! overlapsBusy ranges (t % 1440) (tEnd % 1440),
          providerId := pid } :: rest
      | none => rest

/-- SlotGenerator: generateProviderSlots of routes/services.js for one
provider. Falsy working-hour strings fall back to 08:00 and 20:00; a
bound without a colon yields no slots; a start that fails numeric
parsing makes the initial Date invalid, so the loop breaks at once
and yields no slots; otherwise the loop starts at the working-hours
start and steps by 30 minutes under the 100-step safety cap. -/
def generateProviderSlots (pricing : List PricingEntry) (bookings : List Booking)
    (u : ProviderUser) (duration : ℕ) (date : String) : List Slot :=
  let startStr := if u.whStart == "" then "08:00" else u.whStart
  let endStr := if u.whEnd == "" then "20:00" else u.whEnd
  if !(startStr.data.contains ':') || !(endStr.data.contains ':') then []
  else
    match parseMinutes startStr with
    | none => []
    | some st =>
      genLoop pricing (busyRangesFor bookings u.id date) u.id duration
        (parseMinutes endStr) 100 st

theorem overlapsBusy_not_iff (ranges : List (ℕ × ℕ)) (s e : ℕ) :
    ((! overlapsBusy ranges s e) = true ↔
      ∀ r ∈ ranges, ¬ (s < r.2 ∧ r.1 < e)) := by
  simp only [overlapsBusy, Bool.not_eq_eq_eq_not, Bool.not_true, List.any_eq_false,
    Bool.and_eq_true, decide_eq_true_eq, not_and]

theorem genLoop_mem_spec (pricing : List PricingEntry) (ranges : List (ℕ × ℕ))
    (pid : String) (duration : ℕ) (provEnd : Option ℕ) :
    ∀ fuel t s, s ∈ genLoop pricing ranges pid duration provEnd fuel t →
      ∃ k, k < fuel ∧ s.startTime = t + 30 * k ∧
        s.startTime + duration < 1440 ∧
        (∀ pe, provEnd = some pe → s.startTime + duration ≤ pe) ∧
        s.isAvailable = ! overlapsBusy ranges s.startTime (s.startTime + duration) := by
  intro fuel
  induction fuel with
  | zero =>
    intro t s hs
    simp [genLoop] at hs
  | succ fuel ih =>
    intro t s hs
    simp only [genLoop] at hs
    by_cases h1 : 1440 ≤ t + duration
    · rw [if_pos h1] at hs
      cases hs
    · rw [if_neg h1] at hs
      by_cases h2 : pastProvEnd provEnd ((t + duration) % 1440) = true
      · rw [if_pos h2] at hs
        cases hs
      · rw [if_neg h2] at hs
        have hlt : t + duration < 1440 := Nat.lt_of_not_le h1
        have htmod : t % 1440 = t :=
          Nat.mod_eq_of_lt (Nat.lt_of_le_of_lt (Nat.le_add_right t duration) hlt)
        have hemod : (t + duration) % 1440 = t + duration := Nat.mod_eq_of_lt hlt
        cases hpf : priceFor pricing (t % 1440) ((t + duration) % 1440) with
        | some price =>
          rw [hpf] at hs
          rcases List.mem_cons.mp hs with rfl | hs2
          · refine ⟨0, Nat.succ_pos fuel, by simp, by simpa using hlt, ?_, ?_⟩
            · intro pe hpe
              rw [hpe] at h2
              simp only [pastProvEnd, decide_eq_true_eq] at h2
              have hle := Nat.le_of_not_lt h2
              rw [hemod] at hle
              simpa using hle
            · simp only [htmod, hemod]
          · rcases ih (t + 30) s hs2 with ⟨k, hk, hst, hb, hpe, hav⟩
            exact ⟨k + 1, Nat.succ_lt_succ hk, by rw [hst]; ring, hb, hpe, hav⟩
        | none =>
          rw [hpf] at hs
          rcases ih (t + 30) s hs with ⟨k, hk, hst, hb, hpe, hav⟩
          exact ⟨k + 1, Nat.succ_lt_succ hk, by rw [hst]; ring, hb, hpe, hav⟩

theorem genLoop_length_le (pricing : List PricingEntry) (ranges : List (ℕ × ℕ))
    (pid : String) (duration : ℕ) (provEnd : Option ℕ) :
    ∀ fuel t, (genLoop pricing ranges pid duration provEnd fuel t).length ≤ fuel := by
  intro fuel
  induction fuel with
  | zero =>
    intro t
    simp [genLoop]
  | succ fuel ih =>
    intro t
    simp only [genLoop]
    by_cases h1 : 1440 ≤ t + duration
    · rw [if_pos h1]
      exact Nat.zero_le _
    · rw [if_neg h1]
      by_cases h2 : pastProvEnd provEnd ((t + duration) % 1440) = true
      · rw [if_pos h2]
        exact Nat.zero_le _
      · rw [if_neg h2]
        cases hpf : priceFor pricing (t % 1440) ((t + duration) % 1440) with
        | some price =>
          simpa using Nat.succ_le_succ (ih (t + 30))
        | none =>
          exact Nat.le_succ_of_le (ih (t + 30))

theorem generateProviderSlots_mem (pricing : List PricingEntry)
    (bookings : List Booking) (u : ProviderUser) (duration : ℕ) (date : String)
    (s : Slot) (hs : s ∈ generateProviderSlots pricing bookings u duration date) :
    ∃ st, parseMinutes (if u.whStart == "" then "08:00" else u.whStart) = some st ∧
      ∃ k, k < 100 ∧ s.startTime = st + 30 * k ∧
        s.startTime + duration < 1440 ∧
        (∀ pe, parseMinutes (if u.whEnd == "" then "20:00" else u.whEnd) = some pe →
          s.startTime + duration ≤ pe) ∧
        s.isAvailable = ! overlapsBusy (busyRangesFor bookings u.id date)
          s.startTime (s.startTime + duration) := by
  simp only [generateProviderSlots] at hs
  by_cases hc : (!((if u.whStart == "" then "08:00" else u.whStart).data.contains ':') ||
      !((if u.whEnd == "" then "20:00" else u.whEnd).data.contains ':')) = true
  · rw [if_pos hc] at hs
    cases hs
  · rw [if_neg hc] at hs
    rcases hp : parseMinutes (if u.whStart == "" then "08:00" else u.whStart) with - | st
    · rw [hp] at hs
      cases hs
    · rw [hp] at hs
      rcases genLoop_mem_spec pricing (busyRangesFor bookings u.id date) u.id duration
        (parseMinutes (if u.whEnd == "" then "20:00" else u.whEnd)) 100 st s hs with
        ⟨k, hk, hstart, hb, hpe, hav⟩
      exact ⟨st, rfl, k, hk, hstart, hb, hpe, hav⟩

/-- C5: a slot emitted by the generator carries isAvailable = true
exactly when no busy interval of the provider overlaps the candidate
under the half-open rule (candidateStart < busyEnd and
busyStart < candidateEnd), where the busy intervals are those of the
provider's bookings on the queried date with status pending,
confirmed or in progress whose rendered label parses under the
stored-label pattern; bookings with unparsable labels impose no
constraint (they are dropped by the filterMap in busyRangesFor). -/
theorem slot_availability_iff (pricing : List PricingEntry)
    (bookings : List Booking) (u : ProviderUser) (duration : ℕ) (date : String)
    (s : Slot) (hs : s ∈ generateProviderSlots pricing bookings u duration date) :
    (s.isAvailable = true ↔
      ∀ r ∈ busyRangesFor bookings u.id date,
        ¬ (s.startTime < r.2 ∧ r.1 < s.startTime + duration)) := by
  rcases generateProviderSlots_mem pricing bookings u duration date s hs with
    ⟨st, hst, k, hk, hstart, hb, hpe, hav⟩
  rw [hav]
  exact overlapsBusy_not_iff (busyRangesFor bookings u.id date) s.startTime
    (s.startTime + duration)

/-- Pricing window 09:00 to 11:00 priced 400, used in concrete runs of
the generator. -/
def windowsNine : List PricingEntry :=
  [{ timeSlot := none, startTime := "09:00", endTime := "11:00", price := 400 }]

/-- The one slot the generator emits for windowsNine with a free
provider and a 120-minute duration. -/
def slotNine : Slot :=
  { timeSlot := "09:00 am - 11:00 am", startTime := 540, price := 400,
    isAvailable := true, providerId := "p1" }

/-- Concrete run of slot_availability_iff: the 09:00 slot of a free
provider is available, the busy set being empty. -/
theorem slot_availability_iff_witness :
    (slotNine.isAvailable = true ↔
      ∀ r ∈ busyRangesFor [] provAsha.id "2025-06-01",
        ¬ (slotNine.startTime < r.2 ∧ r.1 < slotNine.startTime + 120)) :=
  slot_availability_iff windowsNine [] provAsha 120 "2025-06-01" slotNine (by decide)

/-- C6: for every provider, duration and working-hours configuration
the generator is total and bounded: it emits at most 100 slots, every
emitted slot starts at the parsed working-hours start advanced by a
whole number of 30-minute steps below the 100-step cap, the candidate
interval [start, start + duration) stays inside the reference day,
and when the working-hours end parses, no emitted candidate ends past
it. -/
theorem slot_generation_bounded (pricing : List PricingEntry)
    (bookings : List Booking) (u : ProviderUser) (duration : ℕ) (date : String) :
    (generateProviderSlots pricing bookings u duration date).length ≤ 100 ∧
    ∀ s ∈ generateProviderSlots pricing bookings u duration date,
      s.startTime + duration < 1440 ∧
      (∀ st, parseMinutes (if u.whStart == "" then "08:00" else u.whStart) = some st →
        ∃ k, k < 100 ∧ s.startTime = st + 30 * k) ∧
      (∀ pe, parseMinutes (if u.whEnd == "" then "20:00" else u.whEnd) = some pe →
        s.startTime + duration ≤ pe) := by
  constructor
  · simp only [generateProviderSlots]
    by_cases hc : (!((if u.whStart == "" then "08:00" else u.whStart).data.contains ':') ||
        !((if u.whEnd == "" then "20:00" else u.whEnd).data.contains ':')) = true
    · rw [if_pos hc]
      simp
    · rw [if_neg hc]
      rcases parseMinutes (if u.whStart == "" then "08:00" else u.whStart) with - | st
      · simp
      · exact genLoop_length_le pricing (busyRangesFor bookings u.id date) u.id duration
          (parseMinutes (if u.whEnd == "" then "20:00" else u.whEnd)) 100 st
  · intro s hs
    rcases generateProviderSlots_mem pricing bookings u duration date s hs with
      ⟨st, hst, k, hk, hstart, hb, hpe, hav⟩
    refine ⟨hb, ?_, hpe⟩
    intro st2 hst2
    rw [hst] at hst2
    injection hst2 with hst2
    rw [← hst2]
    exact ⟨k, hk, hstart⟩

/-- Concrete run of slot_generation_bounded: the generator output is
bounded by 100 slots and its emitted 09:00 slot starts two 30-minute
steps after the 08:00 working start. -/
theorem slot_generation_bounded_witness :
    (generateProviderSlots windowsNine [] provAsha 120 "2025-06-01").length ≤ 100 ∧
    ∃ k, k < 100 ∧ slotNine.startTime = 480 + 30 * k := by
  have h := slot_generation_bounded windowsNine [] provAsha 120 "2025-06-01"
  exact ⟨h.1, (h.2 slotNine (by decide)).2.1 480 (by decide)⟩


/-- Loyalty points awarded for a feedback rating: 10 for rating at
least 4, 5 for rating at least 3, else 0 (the pointsAwarded ternary
of the feedback route). -/
def awardPoints (rating : Int) : ℕ :=
  if 4 ≤ rating then 10 else if 3 ≤ rating then 5 else 0

/-- Gift string pushed on a conversion. -/
def giftLabel : String := "Reward Coupon: ₹100 Off Househelp Supplies"

/-- Point accrual and gift conversion of the feedback route: add the
awarded points, then a single if — when the balance reaches 100, push
one gift and subtract 100 once. -/
def applyGiftConversion (p : ProviderUser) (rating : Int) : ProviderUser :=
  let pts := p.points + awardPoints rating
  if 100 ≤ pts then
    { p with points := pts - 100, gifts := p.gifts ++ [giftLabel] }
  else
    { p with points := pts }

/-- Modelled from the spec, for comparison with applyGiftConversion:
every 100 accumulated points converts into one gift and the balance
drops by 100 per conversion, as many times as the balance allows;
yields the final balance and the number of gifts awarded. -/
def specPointsAndGifts (points : ℕ) (rating : Int) : ℕ × ℕ :=
  let p := points + awardPoints rating
  (p % 100, p / 100)

/-- A rejection: the handler answered an error status before any
write, so the stored records are unchanged. -/
def Rejected {α : Type} (x : Except (ℕ × String) α) : Prop :=
  ∃ e, x = .error e

/-- Lower-cased trim used by the manual-assign category comparison:
(s or empty).trim().toLowerCase(). -/
def lowerTrim (s : String) : List Char :=
  (trimChars s.data).map asciiLower

/-- PATCH /bookings/:id/assign: admin-only manual assignment. After
resolving the booking and the provider it checks only the category
(trimmed, lower-cased) of the provider against the booking's service
name, then sets the provider and forces status to confirmed — there
is no check of the booking's current status. svcName is the populated
booking.service.name. -/
def assignHandler (actorRole : String) (bk : Option Booking)
    (prov : Option ProviderUser) (providerId : String) (svcName : String) :
    Except (ℕ × String) Booking :=
  if actorRole ≠ "admin" then .error (403, "Role not authorized for this action")
  else
    match bk with
    | none => .error (404, "Booking not found")
    | some b =>
      match prov with
      | none => .error (404, "Provider not found")
      | some p =>
        if p.role ≠ "provider" then .error (404, "Provider not found")
        else if lowerTrim p.serviceCategory ≠ lowerTrim svcName then
          .error (400, "Provider category does not match booking service")
        else .ok { b with provider := some providerId, status := "confirmed" }

/-- PATCH /bookings/:id/start: provider-only. A null booking provider
makes the ownership toString throw, answered as a 500 — still a
rejection before any write. Requires the assigned provider as actor
and source status confirmed, then moves to in_progress. -/
def startHandler (actorRole actorId : String) (bk : Option Booking) :
    Except (ℕ × String) Booking :=
  if actorRole ≠ "provider" then .error (403, "Role not authorized for this action")
  else
    match bk with
    | none => .error (404, "Booking not found")
    | some b =>
      match b.provider with
      | none => .error (500, "Cannot read properties of null")
      | some pid =>
        if pid ≠ actorId then .error (403, "Not authorized")
        else if b.status ≠ "confirmed" then
          .error (400, "Can only start confirmed bookings")
        else .ok { b with status := "in_progress" }

/-- PATCH /bookings/:id/complete: provider-only; requires the assigned
provider as actor and source status confirmed (not in_progress); on
success the booking completes and the actor's earnings grow by the
frozen total. self is the actor's own user record. -/
def completeHandler (actorRole actorId : String) (bk : Option Booking)
    (self : ProviderUser) : Except (ℕ × String) (Booking × ProviderUser) :=
  if actorRole ≠ "provider" then .error (403, "Role not authorized for this action")
  else
    match bk with
    | none => .error (404, "Booking not found")
    | some b =>
      match b.provider with
      | none => .error (500, "Cannot read properties of null")
      | some pid =>
        if pid ≠ actorId then .error (403, "Not authorized")
        else if b.status ≠ "confirmed" then
          .error (400, "Booking must be confirmed to complete")
        else
          .ok ({ b with status := "completed" },
               { self with earnings := self.earnings + b.pricing.total })

/-- PATCH /bookings/:id/stop: any authenticated user; requires the
actor to be the assigned provider or the owning customer and source
status in_progress; completes the booking and credits the provider's
earnings. prov is the looked-up assigned provider record. -/
def stopHandler (actorId : String) (bk : Option Booking)
    (prov : Option ProviderUser) : Except (ℕ × String) (Booking × ProviderUser) :=
  match bk with
  | none => .error (404, "Booking not found")
  | some b =>
    match b.provider with
    | none => .error (500, "Cannot read properties of null")
    | some pid =>
      if pid ≠ actorId ∧ b.customer ≠ actorId then .error (403, "Not authorized")
      else if b.status ≠ "in_progress" then
        .error (400, "Can only stop in-progress bookings")
      else
        match prov with
        | none => .error (500, "Cannot read properties of null")
        | some p =>
          .ok ({ b with status := "completed" },
               { p with earnings := p.earnings + b.pricing.total })

/-- PATCH /bookings/:id/feedback: customer-only; requires the owning
customer as actor and status completed. The feedback is then stored
unconditionally — nothing checks whether feedback already exists —
and when the booking has a provider, that provider's points and
gifts are updated through the single conversion step. -/
def feedbackHandler (actorRole actorId : String) (bk : Option Booking)
    (rating : Int) (comment : String) (prov : Option ProviderUser) :
    Except (ℕ × String) (Booking × Option ProviderUser) :=
  if actorRole ≠ "customer" then .error (403, "Role not authorized for this action")
  else
    match bk with
    | none => .error (404, "Booking not found")
    | some b =>
      if b.customer ≠ actorId then .error (403, "Not authorized")
      else if b.status ≠ "completed" then
        .error (400, "Can only leave feedback for completed bookings")
      else
        let b2 := { b with feedback := some (rating, comment) }
        match b.provider with
        | none => .ok (b2, prov)
        | some _ =>
          match prov with
          | none => .error (500, "Cannot read properties of null")
          | some p => .ok (b2, some (applyGiftConversion p rating))

/-- Provider holding 195 points, used in the conversion run. -/
def prov195 : ProviderUser := { provAsha with points := 195 }

/-- C7, counterexample: a provider at 195 points receiving rating 4
reaches 205 points, and the code performs a single conversion — 105
points and one gift remain — while the claim's repeated conversion
would leave 5 points and two gifts. -/
theorem gift_conversion_not_repeated :
    (applyGiftConversion prov195 4).points = 105 ∧
    (applyGiftConversion prov195 4).gifts = [giftLabel] ∧
    specPointsAndGifts 195 4 = (5, 2) ∧
    (applyGiftConversion prov195 4).points ≠ (specPointsAndGifts 195 4).1 := by
  refine ⟨rfl, rfl, rfl, ?_⟩
  decide

/-- C7 amended: after adding the rating-tier points (10 for rating at
least 4, 5 for at least 3, else 0), the feedback event performs at
most one conversion: if the resulting balance reaches 100, exactly
one gift is appended and exactly 100 points are deducted, once, even
when the balance is 200 or more; below 100 nothing converts. -/
theorem feedback_points_single_conversion (p : ProviderUser) (rating : Int) :
    (100 ≤ p.points + awardPoints rating →
      (applyGiftConversion p rating).points = p.points + awardPoints rating - 100 ∧
      (applyGiftConversion p rating).gifts = p.gifts ++ [giftLabel]) ∧
    (p.points + awardPoints rating < 100 →
      (applyGiftConversion p rating).points = p.points + awardPoints rating ∧
      (applyGiftConversion p rating).gifts = p.gifts) ∧
    (applyGiftConversion p rating).gifts.length ≤ p.gifts.length + 1 := by
  by_cases h : 100 ≤ p.points + awardPoints rating
  · refine ⟨fun _ => ⟨?_, ?_⟩, fun hlt => absurd h (Nat.not_le_of_lt hlt), ?_⟩
    · simp [applyGiftConversion, h]
    · simp [applyGiftConversion, h]
    · simp [applyGiftConversion, h]
  · refine ⟨fun hle => absurd hle h, fun _ => ⟨?_, ?_⟩, ?_⟩
    · simp [applyGiftConversion, h]
    · simp [applyGiftConversion, h]
    · simp [applyGiftConversion, h]

/-- Provider holding 96 points, the spec example. -/
def prov96 : ProviderUser := { provAsha with points := 96 }

/-- Concrete run of feedback_points_single_conversion: 96 points plus
a rating-4 award make 106, converted once into one gift and 6
points. -/
theorem feedback_points_single_conversion_witness :
    (applyGiftConversion prov96 4).points = 6 ∧
    (applyGiftConversion prov96 4).gifts = [giftLabel] := by
  have h := (feedback_points_single_conversion prov96 4).1 (by decide)
  refine ⟨?_, ?_⟩
  · rw [h.1]
    decide
  · rw [h.2]
    rfl

/-- Completed booking used in the feedback and assignment runs. -/
def bkDone : Booking :=
  { customer := "c1", provider := some "p1", service := "svc1",
    address := "12 Lane", date := "2025-06-01",
    timeSlot := "09:00 am - 11:00 am", status := "completed",
    pricing := ⟨400, 72, 472⟩, feedback := none }

/-- C8, counterexample: the feedback route has no once-only guard — a
second submission by the owning customer on the same completed
booking succeeds again, overwrites the stored feedback and pushes the
provider's points from 10 to 20. -/
theorem feedback_no_once_only_guard :
    feedbackHandler "customer" "c1" (some bkDone) 5 "great" (some provAsha) =
      .ok ({ bkDone with feedback := some (5, "great") },
           some (applyGiftConversion provAsha 5)) ∧
    feedbackHandler "customer" "c1"
        (some { bkDone with feedback := some (5, "great") }) 5 "again"
        (some (applyGiftConversion provAsha 5)) =
      .ok ({ bkDone with feedback := some (5, "again") },
           some (applyGiftConversion (applyGiftConversion provAsha 5) 5)) ∧
    (applyGiftConversion provAsha 5).points = 10 ∧
    (applyGiftConversion (applyGiftConversion provAsha 5) 5).points = 20 :=
  ⟨rfl, rfl, rfl, rfl⟩

/-- C8 amended: a completed booking accepts feedback from the owning
customer, but with no once-only guard: a subsequent submission on the
same booking also succeeds, overwrites the stored feedback, and runs
the point award and conversion for the provider again. -/
theorem feedback_resubmission_succeeds
    (b : Booking) (actorId : String) (r1 r2 : Int) (c1 c2 : String)
    (p : ProviderUser) (pid : String)
    (hcust : b.customer = actorId) (hst : b.status = "completed")
    (hprov : b.provider = some pid) :
    feedbackHandler "customer" actorId (some b) r1 c1 (some p) =
      .ok ({ b with feedback := some (r1, c1) }, some (applyGiftConversion p r1)) ∧
    feedbackHandler "customer" actorId (some { b with feedback := some (r1, c1) })
        r2 c2 (some (applyGiftConversion p r1)) =
      .ok ({ b with feedback := some (r2, c2) },
           some (applyGiftConversion (applyGiftConversion p r1) r2)) := by
  constructor
  · simp [feedbackHandler, hcust, hst, hprov]
  · simp [feedbackHandler, hcust, hst, hprov]

/-- Concrete run of feedback_resubmission_succeeds on bkDone. -/
theorem feedback_resubmission_succeeds_witness :
    feedbackHandler "customer" "c1" (some bkDone) 4 "ok" (some provAsha) =
      .ok ({ bkDone with feedback := some (4, "ok") },
           some (applyGiftConversion provAsha 4)) ∧
    feedbackHandler "customer" "c1" (some { bkDone with feedback := some (4, "ok") })
        2 "meh" (some (applyGiftConversion provAsha 4)) =
      .ok ({ bkDone with feedback := some (2, "meh") },
           some (applyGiftConversion (applyGiftConversion provAsha 4) 2)) :=
  feedback_resubmission_succeeds bkDone "c1" 4 2 "ok" "meh" provAsha "p1" rfl rfl rfl

theorem startHandler_ok_inv (actorRole actorId : String) (b b2 : Booking)
    (hx : startHandler actorRole actorId (some b) = .ok b2) :
    b.provider = some actorId ∧ b.status = "confirmed" := by
  simp only [startHandler] at hx
  split at hx
  · cases hx
  · split at hx
    · cases hx
    · split at hx
      · cases hx
      · split at hx
        · cases hx
        · rename_i pid hprov hpid hstat
          refine ⟨?_, Decidable.of_not_not hstat⟩
          rw [hprov, Decidable.of_not_not hpid]

theorem completeHandler_ok_inv (actorRole actorId : String) (b : Booking)
    (self : ProviderUser) (b2 : Booking) (p2 : ProviderUser)
    (hx : completeHandler actorRole actorId (some b) self = .ok (b2, p2)) :
    b.provider = some actorId ∧ b.status = "confirmed" := by
  simp only [completeHandler] at hx
  split at hx
  · cases hx
  · split at hx
    · cases hx
    · split at hx
      · cases hx
      · split at hx
        · cases hx
        · rename_i pid hprov hpid hstat
          refine ⟨?_, Decidable.of_not_not hstat⟩
          rw [hprov, Decidable.of_not_not hpid]

theorem stopHandler_ok_inv (actorId : String) (b : Booking)
    (prov : Option ProviderUser) (b2 : Booking) (p2 : ProviderUser)
    (hx : stopHandler actorId (some b) prov = .ok (b2, p2)) :
    (b.provider = some actorId ∨ b.customer = actorId) ∧
      b.status = "in_progress" := by
  simp only [stopHandler] at hx
  split at hx
  next => cases hx
  next pid heq =>
    split at hx
    next hown => cases hx
    next hown =>
      split at hx
      next hstat => cases hx
      next hstat =>
        split at hx
        next => cases hx
        next p3 =>
          rw [not_and_or] at hown
          refine ⟨?_, not_not.mp hstat⟩
          rcases hown with hown | hown
          · left
            rw [heq, not_not.mp hown]
          · right
            exact not_not.mp hown

theorem feedbackHandler_ok_inv (actorRole actorId : String) (b : Booking)
    (rating : Int) (comment : String) (prov : Option ProviderUser)
    (res : Booking × Option ProviderUser)
    (hx : feedbackHandler actorRole actorId (some b) rating comment prov = .ok res) :
    b.customer = actorId ∧ b.status = "completed" := by
  simp only [feedbackHandler] at hx
  split at hx
  · cases hx
  · split at hx
    · cases hx
    · split at hx
      · cases hx
      · rename_i hcust hstat
        exact ⟨Decidable.of_not_not hcust, Decidable.of_not_not hstat⟩

/-- C9, counterexample: manual assignment checks no source state — on
a completed booking, with a category-matching provider, it succeeds
and mutates the record, forcing status back to confirmed, where the
claim requires a failure that leaves the booking unchanged. -/
theorem assign_ignores_source_state :
    assignHandler "admin" (some bkDone) (some provAsha) "p1" "Bathroom Cleaning" =
      .ok { bkDone with provider := some "p1", status := "confirmed" } ∧
    bkDone.status = "completed" ∧
    ({ bkDone with provider := some "p1", status := "confirmed" } : Booking).status ≠
      bkDone.status := by
  refine ⟨rfl, rfl, ?_⟩
  decide

/-- C9 amended: start, complete, stop and feedback reject, before any
write, every attempt by an actor who does not own the relevant role
on the booking and every attempt from a wrong source state; manual
assignment checks the admin role, the provider's existence and the
category match, but no source state — with a category-matching
provider it succeeds from any status, setting the provider and
forcing status to confirmed. -/
theorem transition_guards
    (actorRole actorId : String) (b : Booking) (prov : Option ProviderUser)
    (self : ProviderUser) (pid : String) (svcName : String)
    (rating : Int) (comment : String) :
    ((b.provider ≠ some actorId ∨ b.status ≠ "confirmed") →
      Rejected (startHandler actorRole actorId (some b))) ∧
    ((b.provider ≠ some actorId ∨ b.status ≠ "confirmed") →
      Rejected (completeHandler actorRole actorId (some b) self)) ∧
    (((b.provider ≠ some actorId ∧ b.customer ≠ actorId) ∨ b.status ≠ "in_progress") →
      Rejected (stopHandler actorId (some b) prov)) ∧
    ((b.customer ≠ actorId ∨ b.status ≠ "completed") →
      Rejected (feedbackHandler actorRole actorId (some b) rating comment prov)) ∧
    (∀ p2, prov = some p2 → p2.role = "provider" →
      lowerTrim p2.serviceCategory = lowerTrim svcName →
      assignHandler "admin" (some b) prov pid svcName =
        .ok { b with provider := some pid, status := "confirmed" }) := by
  refine ⟨?_, ?_, ?_, ?_, ?_⟩
  · intro h
    cases hres : startHandler actorRole actorId (some b) with
    | error e => exact ⟨e, rfl⟩
    | ok b2 =>
      rcases startHandler_ok_inv actorRole actorId b b2 hres with ⟨h1, h2⟩
      rcases h with h | h
      · exact absurd h1 h
      · exact absurd h2 h
  · intro h
    cases hres : completeHandler actorRole actorId (some b) self with
    | error e => exact ⟨e, rfl⟩
    | ok r =>
      rcases completeHandler_ok_inv actorRole actorId b self r.1 r.2
        (by rw [hres]) with ⟨h1, h2⟩
      rcases h with h | h
      · exact absurd h1 h
      · exact absurd h2 h
  · intro h
    cases hres : stopHandler actorId (some b) prov with
    | error e => exact ⟨e, rfl⟩
    | ok r =>
      rcases stopHandler_ok_inv actorId b prov r.1 r.2 (by rw [hres]) with ⟨h1, h2⟩
      rcases h with ⟨hp, hc⟩ | h
      · rcases h1 with h1 | h1
        · exact absurd h1 hp
        · exact absurd h1 hc
      · exact absurd h2 h
  · intro h
    cases hres : feedbackHandler actorRole actorId (some b) rating comment prov with
    | error e => exact ⟨e, rfl⟩
    | ok r =>
      rcases feedbackHandler_ok_inv actorRole actorId b rating comment prov r hres with
        ⟨h1, h2⟩
      rcases h with h | h
      · exact absurd h1 h
      · exact absurd h2 h
  · intro p2 hp2 hrole hcat
    subst hp2
    simp [assignHandler, hrole, hcat]

/-- Concrete run of transition_guards: a non-assigned provider cannot
start bkDone, its wrong source state blocks complete, and the
category-matching manual assignment succeeds on the completed
bkDone. -/
theorem transition_guards_witness :
    Rejected (startHandler "provider" "intruder" (some bkDone)) ∧
    Rejected (completeHandler "provider" "p1" (some bkDone) provAsha) ∧
    Rejected (feedbackHandler "customer" "someone-else" (some bkDone) 5 "x"
      (some provAsha)) ∧
    assignHandler "admin" (some bkDone) (some provAsha) "p1" "Bathroom Cleaning" =
      .ok { bkDone with provider := some "p1", status := "confirmed" } := by
  have h := transition_guards "provider" "intruder" bkDone (some provAsha)
    provAsha "p1" "Bathroom Cleaning" 5 "x"
  have h2 := transition_guards "provider" "p1" bkDone (some provAsha)
    provAsha "p1" "Bathroom Cleaning" 5 "x"
  have h3 := transition_guards "customer" "someone-else" bkDone (some provAsha)
    provAsha "p1" "Bathroom Cleaning" 5 "x"
  exact ⟨h.1 (Or.inl (by decide)), h2.2.1 (Or.inr (by decide)),
    h3.2.2.2.1 (Or.inl (by decide)),
    h.2.2.2.2 provAsha rfl rfl (by decide)⟩

end Househelp
